import Mathlib

/-!
# Verification of the rust-docs MCP server core

Shallow embedding of the two functional modules of the repository:

* `src/rust_docs_mcp_server/utils/config.py` — the `ServerConfig` pydantic
  model with its two validators, and `load_config`, which layers built-in
  defaults, environment variables and an optional JSON config file.
* `src/rust_docs_mcp_server/tools/search_tools.py` — the three tool
  implementations `search_rust_docs_impl`, `get_rust_doc_details_impl` and
  `generate_crate_docs_impl` (placeholder implementations in the source:
  each builds a fixed-shape response dict from its arguments and nothing
  else).

Modelling conventions: Python floats are embedded as exact rationals
(`Rat`); the values compared here (0.0, 0.7, 1.0, 1.5) are handled
identically by IEEE doubles and exact rationals. Filesystem paths are
plain strings. Logging is made explicit: functions that log return the
list of emitted log records alongside their value. Python exceptions that
the source catches locally are embedded as `Option`/`Except`; every
embedded function is total, mirroring the source functions' property of
never letting an exception escape.
-/

/-- Severity of a record emitted through the module logger. -/
inductive LogLevel where
  | info
  | warning
  | error
  deriving DecidableEq

/-- One record emitted through the module logger (level and message).
Messages are kept without the interpolated values of the source's
f-strings where the value is not fixed. -/
structure LogEvent where
  level : LogLevel
  msg : String
  deriving DecidableEq

/-- Value of a list of decimal digit characters. -/
def digitsVal (l : List Char) : Nat :=
  l.foldl (fun a c => a * 10 + (c.toNat - 48)) 0

/-- Embedding of Python `int(s)` as used by `load_config` on environment
strings: an optional sign followed by one or more decimal digits parses;
anything else raises `ValueError`, embedded as `none`. (Python
additionally strips surrounding whitespace and accepts underscore digit
separators; those inputs are outside this model.) -/
def pyInt (s : String) : Option Int :=
  match s.toList with
  | [] => none
  | c :: rest =>
    let sign : Int := if c = '-' then -1 else 1
    let digits := if c = '-' ∨ c = '+' then rest else c :: rest
    if digits ≠ [] ∧ digits.all Char.isDigit then
      some (sign * (digitsVal digits : Int))
    else none

/-- Embedding of Python `float(s)` on plain decimal notation: optional
sign, then digits with an optional fractional part (at least one digit on
one side of the point). Exponent notation, `inf`/`nan` and whitespace
stripping are outside this model; the exact rational value stands in for
the nearest IEEE double. -/
def pyFloat (s : String) : Option Rat :=
  match s.toList with
  | [] => none
  | c :: rest =>
    let sign : Rat := if c = '-' then -1 else 1
    let body := if c = '-' ∨ c = '+' then rest else c :: rest
    match body.splitOn '.' with
    | [ip] =>
      if ip ≠ [] ∧ ip.all Char.isDigit then some (sign * (digitsVal ip : Rat))
      else none
    | [ip, fp] =>
      if (ip ≠ [] ∨ fp ≠ []) ∧ ip.all Char.isDigit ∧ fp.all Char.isDigit then
        some (sign * ((digitsVal ip : Rat) + (digitsVal fp : Rat) / (10 : Rat) ^ fp.length))
      else none
    | _ => none

/-- The `ServerConfig` pydantic model from `utils/config.py`: database
path, cache size limit (bytes), cache TTL (seconds), default crate list,
maximum search results, fuzzy match threshold. -/
structure ServerConfig where
  db_path : String
  cache_size_limit : Int
  cache_ttl : Int
  default_crates : List String
  max_search_results : Int
  fuzzy_match_threshold : Rat
  deriving DecidableEq

/-- `ServerConfig()` with every field at its declared default:
`./rust_docs_db`, 1 GB, 7 days, `["std"]`, 10, 0.7. -/
def ServerConfig.default : ServerConfig :=
  { db_path := "./rust_docs_db"
    cache_size_limit := 1024 * 1024 * 1024
    cache_ttl := 7 * 24 * 60 * 60
    default_crates := ["std"]
    max_search_results := 10
    fuzzy_match_threshold := 7 / 10 }

/-- The `validate_db_path` validator expands and resolves the path and
creates the directory — a filesystem side effect with no effect on which
configuration value is stored beyond path normalization, embedded as the
identity on the path string. It never rejects a value. -/
def validate_db_path (v : String) : String := v

/-- The `validate_fuzzy_match_threshold` validator from `utils/config.py`:
accepts a value iff `0.0 <= v <= 1.0`, otherwise raises `ValueError`
(embedded as `Except.error` with the source's message). -/
def validate_fuzzy_match_threshold (v : Rat) : Except String Rat :=
  if 0 ≤ v ∧ v ≤ 1 then Except.ok v
  else Except.error "Fuzzy match threshold must be between 0.0 and 1.0"

/-- The keyword-argument dictionary `config_dict` that `load_config`
builds and passes to `ServerConfig(**config_dict)`. `none` means the key
is absent, so the field takes its declared default. Values originating
from the JSON config file arrive already carrying these types. -/
structure ConfigDict where
  db_path : Option String := none
  cache_size_limit : Option Int := none
  cache_ttl : Option Int := none
  default_crates : Option (List String) := none
  max_search_results : Option Int := none
  fuzzy_match_threshold : Option Rat := none
  deriving DecidableEq

/-- `config_dict.update(file_config)`: every key present in the file
dictionary replaces the corresponding key of the accumulated dictionary;
absent keys leave it unchanged. -/
def ConfigDict.update (d f : ConfigDict) : ConfigDict where
  db_path := (f.db_path).orElse (fun _ => d.db_path)
  cache_size_limit := (f.cache_size_limit).orElse (fun _ => d.cache_size_limit)
  cache_ttl := (f.cache_ttl).orElse (fun _ => d.cache_ttl)
  default_crates := (f.default_crates).orElse (fun _ => d.default_crates)
  max_search_results := (f.max_search_results).orElse (fun _ => d.max_search_results)
  fuzzy_match_threshold := (f.fuzzy_match_threshold).orElse (fun _ => d.fuzzy_match_threshold)

/-- The record built by `ServerConfig(**d)` once validation has fixed the
threshold value `thr`: absent keys take the declared defaults, a supplied
`db_path` passes through its validator. -/
def ServerConfig.ofDictWith (d : ConfigDict) (thr : Rat) : ServerConfig :=
  { db_path := (d.db_path.map validate_db_path).getD "./rust_docs_db"
    cache_size_limit := d.cache_size_limit.getD (1024 * 1024 * 1024)
    cache_ttl := d.cache_ttl.getD (7 * 24 * 60 * 60)
    default_crates := d.default_crates.getD ["std"]
    max_search_results := d.max_search_results.getD 10
    fuzzy_match_threshold := thr }

/-- `ServerConfig(**d)`: pydantic fills absent keys with the field
defaults and runs the field validators on supplied values (v1-style
validators do not run on defaults). A failing validator raises
`pydantic.ValidationError`, embedded as `Except.error`. Only
`fuzzy_match_threshold` has a rejecting validator; the integer and list
fields are stored unvalidated. -/
def ServerConfig.ofDict (d : ConfigDict) : Except String ServerConfig :=
  match d.fuzzy_match_threshold with
  | none => Except.ok (ServerConfig.ofDictWith d (7 / 10))
  | some v =>
    match validate_fuzzy_match_threshold v with
    | Except.ok v2 => Except.ok (ServerConfig.ofDictWith d v2)
    | Except.error e => Except.error e

/-- The six environment variables read by `load_config`; `none` embeds an
unset variable (`os.getenv` returning `None`). -/
structure EnvVars where
  RUST_DOCS_DB_PATH : Option String := none
  RUST_DOCS_CACHE_SIZE_LIMIT : Option String := none
  RUST_DOCS_CACHE_TTL : Option String := none
  RUST_DOCS_DEFAULT_CRATES : Option String := none
  RUST_DOCS_MAX_SEARCH_RESULTS : Option String := none
  RUST_DOCS_FUZZY_MATCH_THRESHOLD : Option String := none

/-- The `if os.getenv(name):` guard — an unset variable and a variable set
to the empty string are both falsy, so both are skipped. -/
def envTruthy : Option String → Option String
  | some s => if s = "" then none else some s
  | none => none

/-- One `try: config_dict[key] = int(os.getenv(name)) except ValueError:
logger.warning(...)` block of `load_config`: a parse failure leaves the
key absent and logs the field's warning. -/
def envIntField (v : Option String) (warnMsg : String) : Option Int × List LogEvent :=
  match envTruthy v with
  | none => (none, [])
  | some s =>
    match pyInt s with
    | some n => (some n, [])
    | none => (none, [⟨LogLevel.warning, warnMsg⟩])

/-- The `float(...)` analogue of `envIntField`, used for
`RUST_DOCS_FUZZY_MATCH_THRESHOLD`. -/
def envFloatField (v : Option String) (warnMsg : String) : Option Rat × List LogEvent :=
  match envTruthy v with
  | none => (none, [])
  | some s =>
    match pyFloat s with
    | some r => (some r, [])
    | none => (none, [⟨LogLevel.warning, warnMsg⟩])

/-- Outcome of the config-file stage of `load_config`: no `config_path`
argument; a path whose file does not exist (logged warning, dictionary
unchanged); a path whose open/JSON-decode raises (logged error,
dictionary unchanged); or a successfully decoded JSON object. -/
inductive FileSource where
  | noPath
  | notFound
  | failed
  | loaded (fc : ConfigDict)

/-- The dictionary-building phase of `load_config`: each set, truthy
environment variable contributes its (parsed) value, unparseable numeric
values are dropped with a per-field warning, and the file dictionary is
then `update`d over the result, so file keys win over environment keys.
Log records appear in the source's emission order. -/
def build_config_dict (env : EnvVars) (file : FileSource) : ConfigDict × List LogEvent :=
  let csl := envIntField env.RUST_DOCS_CACHE_SIZE_LIMIT
    "Invalid RUST_DOCS_CACHE_SIZE_LIMIT, using default"
  let ttl := envIntField env.RUST_DOCS_CACHE_TTL
    "Invalid RUST_DOCS_CACHE_TTL, using default"
  let msr := envIntField env.RUST_DOCS_MAX_SEARCH_RESULTS
    "Invalid RUST_DOCS_MAX_SEARCH_RESULTS, using default"
  let fmt := envFloatField env.RUST_DOCS_FUZZY_MATCH_THRESHOLD
    "Invalid RUST_DOCS_FUZZY_MATCH_THRESHOLD, using default"
  let d : ConfigDict :=
    { db_path := envTruthy env.RUST_DOCS_DB_PATH
      cache_size_limit := csl.1
      cache_ttl := ttl.1
      default_crates := (envTruthy env.RUST_DOCS_DEFAULT_CRATES).map (fun s => s.splitOn ",")
      max_search_results := msr.1
      fuzzy_match_threshold := fmt.1 }
  let logs := csl.2 ++ ttl.2 ++ msr.2 ++ fmt.2
  match file with
  | FileSource.noPath => (d, logs)
  | FileSource.notFound => (d, logs ++ [⟨LogLevel.warning, "Config file not found"⟩])
  | FileSource.failed => (d, logs ++ [⟨LogLevel.error, "Error loading config file"⟩])
  | FileSource.loaded fc => (d.update fc, logs)

/-- `load_config` from `utils/config.py`: build the layered dictionary,
then construct `ServerConfig(**config_dict)`. A `pydantic.ValidationError`
is caught, logged, and answered with the all-defaults `ServerConfig()` —
the function is total (never raises), every failure path being a logged
fallback. -/
def load_config (env : EnvVars) (file : FileSource) : ServerConfig × List LogEvent :=
  match ServerConfig.ofDict (build_config_dict env file).1 with
  | Except.ok c =>
    (c, (build_config_dict env file).2 ++ [⟨LogLevel.info, "Configuration loaded successfully"⟩])
  | Except.error e =>
    (ServerConfig.default,
      (build_config_dict env file).2 ++
        [⟨LogLevel.error, "Configuration validation error: " ++ e⟩,
         ⟨LogLevel.warning, "Using default configuration"⟩])

/-- The ASCII single-quote character, with which the placeholder messages
wrap their interpolated argument. -/
def apos : String := String.singleton (Char.ofNat 39)

/-- One entry of the `results` list in a search response (shape fixed by
the tool schema: path, score, summary). The placeholder implementation
never constructs one. -/
structure SearchResultEntry where
  path : String
  score : Rat
  summary : String
  deriving DecidableEq

/-- The response dictionary of `search_rust_docs_impl`. -/
structure SearchResponse where
  status : String
  message : String
  results : List SearchResultEntry
  deriving DecidableEq

/-- `search_rust_docs_impl` from `tools/search_tools.py` — the placeholder
implementation: regardless of `crate`, `max_results` and `include_std`, it
returns `status = "success"`, the fixed not-yet-implemented message
quoting the query, and an empty `results` list. It reads no corpus and no
other state. -/
def search_rust_docs_impl (query : String) (crate : Option String) (max_results : Int)
    (include_std : Bool) : SearchResponse :=
  { status := "success"
    message := "Search for " ++ apos ++ query ++ apos ++ " not yet implemented"
    results := [] }

/-- The response dictionary of `get_rust_doc_details_impl`; the
`documentation` JSON object is embedded as an association list, so the
empty object `{}` of the source is `[]`. -/
structure DetailsResponse where
  status : String
  message : String
  documentation : List (String × String)
  deriving DecidableEq

/-- `get_rust_doc_details_impl` from `tools/search_tools.py` — the
placeholder implementation: for every `item_path` it returns
`status = "success"`, the fixed message quoting the path, and an empty
`documentation` object. It consults no corpus, so it cannot distinguish
existing from nonexistent paths, and it never raises. -/
def get_rust_doc_details_impl (item_path : String) (include_examples : Bool)
    (include_methods : Bool) : DetailsResponse :=
  { status := "success"
    message := "Documentation retrieval for " ++ apos ++ item_path ++ apos ++ " not yet implemented"
    documentation := [] }

/-- The response dictionary of `generate_crate_docs_impl`. -/
structure GenerateResponse where
  status : String
  message : String
  doc_count : Int
  deriving DecidableEq

/-- `generate_crate_docs_impl` from `tools/search_tools.py` — the
placeholder implementation: for every `crate_path` and
`include_dependencies` it returns `status = "success"`, the fixed message
quoting the path, and `doc_count = 0`. -/
def generate_crate_docs_impl (crate_path : String) (include_dependencies : Bool) :
    GenerateResponse :=
  { status := "success"
    message := "Documentation generation for " ++ apos ++ crate_path ++ apos ++ " not yet implemented"
    doc_count := 0 }

example : pyInt "42" = some 42 := by decide
example : pyInt "abc" = none := by decide
example : (load_config {} FileSource.noPath).1 = ServerConfig.default := rfl

/-! ## Helper lemmas about `ServerConfig.ofDict` and `load_config` -/

/-- With no threshold key, construction succeeds with the default 0.7. -/
theorem ofDict_of_none (d : ConfigDict) (h : d.fuzzy_match_threshold = none) :
    ServerConfig.ofDict d = Except.ok (ServerConfig.ofDictWith d (7 / 10)) := by
  unfold ServerConfig.ofDict
  rw [h]

/-- With an in-range threshold key, construction succeeds with that value. -/
theorem ofDict_of_in_range (d : ConfigDict) (v : Rat) (h : d.fuzzy_match_threshold = some v)
    (hv : 0 ≤ v ∧ v ≤ 1) :
    ServerConfig.ofDict d = Except.ok (ServerConfig.ofDictWith d v) := by
  unfold ServerConfig.ofDict validate_fuzzy_match_threshold
  rw [h]
  dsimp only
  rw [if_pos hv]

/-- With an out-of-range threshold key, construction raises
`ValidationError` carrying the validator's message. -/
theorem ofDict_of_out_of_range (d : ConfigDict) (v : Rat) (h : d.fuzzy_match_threshold = some v)
    (hv : ¬ (0 ≤ v ∧ v ≤ 1)) :
    ServerConfig.ofDict d = Except.error "Fuzzy match threshold must be between 0.0 and 1.0" := by
  unfold ServerConfig.ofDict validate_fuzzy_match_threshold
  rw [h]
  dsimp only
  rw [if_neg hv]

/-- Every successfully constructed config carries an in-range threshold. -/
theorem ofDict_ok_threshold_bounds (d : ConfigDict) (c : ServerConfig)
    (h : ServerConfig.ofDict d = Except.ok c) :
    0 ≤ c.fuzzy_match_threshold ∧ c.fuzzy_match_threshold ≤ 1 := by
  rcases hd : d.fuzzy_match_threshold with _ | v
  · rw [ofDict_of_none d hd] at h
    cases h
    constructor <;> norm_num [ServerConfig.ofDictWith]
  · by_cases hv : 0 ≤ v ∧ v ≤ 1
    · rw [ofDict_of_in_range d v hd hv] at h
      cases h
      simpa [ServerConfig.ofDictWith] using hv
    · rw [ofDict_of_out_of_range d v hd hv] at h
      cases h

/-- A successfully constructed config is stored unchanged: field values
come from the dictionary, absent keys from the defaults. -/
theorem ofDict_ok_fields (d : ConfigDict) (c : ServerConfig)
    (h : ServerConfig.ofDict d = Except.ok c) :
    c.db_path = (d.db_path.map validate_db_path).getD "./rust_docs_db" ∧
    c.cache_size_limit = d.cache_size_limit.getD (1024 * 1024 * 1024) ∧
    c.cache_ttl = d.cache_ttl.getD (7 * 24 * 60 * 60) ∧
    c.default_crates = d.default_crates.getD ["std"] ∧
    c.max_search_results = d.max_search_results.getD 10 := by
  rcases hd : d.fuzzy_match_threshold with _ | v
  · rw [ofDict_of_none d hd] at h
    cases h
    exact ⟨rfl, rfl, rfl, rfl, rfl⟩
  · by_cases hv : 0 ≤ v ∧ v ≤ 1
    · rw [ofDict_of_in_range d v hd hv] at h
      cases h
      exact ⟨rfl, rfl, rfl, rfl, rfl⟩
    · rw [ofDict_of_out_of_range d v hd hv] at h
      cases h

/-- When validation succeeds, `load_config` returns the validated config. -/
theorem load_config_of_ok (env : EnvVars) (file : FileSource) (c : ServerConfig)
    (h : ServerConfig.ofDict (build_config_dict env file).1 = Except.ok c) :
    load_config env file =
      (c, (build_config_dict env file).2 ++
        [⟨LogLevel.info, "Configuration loaded successfully"⟩]) := by
  unfold load_config
  rw [h]

/-- When validation fails, `load_config` falls back to `ServerConfig()`
(every field at its default) and logs the error plus a warning. -/
theorem load_config_of_error (env : EnvVars) (file : FileSource) (e : String)
    (h : ServerConfig.ofDict (build_config_dict env file).1 = Except.error e) :
    load_config env file =
      (ServerConfig.default, (build_config_dict env file).2 ++
        [⟨LogLevel.error, "Configuration validation error: " ++ e⟩,
         ⟨LogLevel.warning, "Using default configuration"⟩]) := by
  unfold load_config
  rw [h]

/-- `1.5` (and any other value outside `[0, 1]`) fails the threshold
validator's range test. -/
theorem three_halves_out_of_range : ¬ ((0 : Rat) ≤ 3 / 2 ∧ (3 / 2 : Rat) ≤ 1) :=
  fun h => absurd h.2 (by norm_num)

/-! ## Claim theorems -/

/-- C1 (counterexample): a load in which exactly one field is invalid —
the file sets `fuzzy_match_threshold` to 1.5 — while the environment
validly supplies `cache_ttl = 42`. The claim predicts `cache_ttl` keeps
its supplied value 42; the code instead reverts the whole configuration
to `ServerConfig()`, so `cache_ttl` is the default 604800, not 42. -/
theorem c1_counterexample :
    (load_config { RUST_DOCS_CACHE_TTL := some "42" }
        (FileSource.loaded { fuzzy_match_threshold := some (3 / 2) })).1.cache_ttl ≠ 42 ∧
    (load_config { RUST_DOCS_CACHE_TTL := some "42" }
        (FileSource.loaded { fuzzy_match_threshold := some (3 / 2) })).1 =
      ServerConfig.default := by
  have herr := ofDict_of_out_of_range
    (build_config_dict { RUST_DOCS_CACHE_TTL := some "42" }
      (FileSource.loaded { fuzzy_match_threshold := some (3 / 2) })).1
    (3 / 2) rfl three_halves_out_of_range
  have hfall := load_config_of_error _ _ _ herr
  rw [hfall]
  exact ⟨by decide, rfl⟩

/-- C1 (amended): an unparseable numeric value from the environment falls
back to the default for that field only, with a per-field warning, other
environment-supplied fields keeping their values; but a supplied value
that parses and then fails model validation (threshold out of `[0, 1]`)
makes `load_config` discard the whole dictionary and return the
all-defaults `ServerConfig()`. In both cases `load_config` returns a value
(never raises), being a total function. -/
theorem c1_per_field_and_global_fallback :
    (∀ (s t : String) (n : Int), s ≠ "" → pyInt s = none → pyInt t = some n →
      (load_config { RUST_DOCS_CACHE_TTL := some s, RUST_DOCS_CACHE_SIZE_LIMIT := some t }
          FileSource.noPath).1.cache_ttl = 7 * 24 * 60 * 60 ∧
      (load_config { RUST_DOCS_CACHE_TTL := some s, RUST_DOCS_CACHE_SIZE_LIMIT := some t }
          FileSource.noPath).1.cache_size_limit = n ∧
      LogEvent.mk LogLevel.warning "Invalid RUST_DOCS_CACHE_TTL, using default" ∈
        (load_config { RUST_DOCS_CACHE_TTL := some s, RUST_DOCS_CACHE_SIZE_LIMIT := some t }
            FileSource.noPath).2) ∧
    (∀ (env : EnvVars) (file : FileSource) (v : Rat),
      (build_config_dict env file).1.fuzzy_match_threshold = some v → ¬ (0 ≤ v ∧ v ≤ 1) →
      (load_config env file).1 = ServerConfig.default) := by
  constructor
  · intro s t n hs hsbad htgood
    have ht0 : t ≠ "" := by
      intro ht0
      rw [ht0] at htgood
      simp [pyInt] at htgood
    have hok := load_config_of_ok
      { RUST_DOCS_CACHE_TTL := some s, RUST_DOCS_CACHE_SIZE_LIMIT := some t }
      FileSource.noPath _
      (ofDict_of_none _ (by simp [build_config_dict, envFloatField, envTruthy]))
    rw [hok]
    refine ⟨?_, ?_, ?_⟩
    · simp [ServerConfig.ofDictWith, build_config_dict, envIntField, envTruthy, hs, hsbad]
    · simp [ServerConfig.ofDictWith, build_config_dict, envIntField, envTruthy, ht0, htgood]
    · simp [build_config_dict, envIntField, envFloatField, envTruthy, hs, hsbad, ht0, htgood]
  · intro env file v hv hout
    rw [load_config_of_error env file _ (ofDict_of_out_of_range _ v hv hout)]

/-- C3 (confirmed): every configuration `load_config` produces has
`fuzzy_match_threshold` in `[0, 1]`: a validated construction passed the
range validator, and the fallback on validation failure is the default
0.7. In particular a config file setting the threshold to 1.5 yields the
default 0.7 with the source's "Using default configuration" warning
logged. -/
theorem c3_threshold_invariant :
    (∀ (env : EnvVars) (file : FileSource),
      0 ≤ (load_config env file).1.fuzzy_match_threshold ∧
      (load_config env file).1.fuzzy_match_threshold ≤ 1) ∧
    (load_config {}
        (FileSource.loaded { fuzzy_match_threshold := some (3 / 2) })).1.fuzzy_match_threshold =
      7 / 10 ∧
    LogEvent.mk LogLevel.warning "Using default configuration" ∈
      (load_config {} (FileSource.loaded { fuzzy_match_threshold := some (3 / 2) })).2 := by
  have herr := ofDict_of_out_of_range
    (build_config_dict {} (FileSource.loaded { fuzzy_match_threshold := some (3 / 2) })).1
    (3 / 2) rfl three_halves_out_of_range
  have hfall := load_config_of_error _ _ _ herr
  refine ⟨?_, ?_, ?_⟩
  · intro env file
    rcases hd : ServerConfig.ofDict (build_config_dict env file).1 with e | c
    · rw [load_config_of_error env file e hd]
      constructor <;> norm_num [ServerConfig.default]
    · rw [load_config_of_ok env file c hd]
      exact ofDict_ok_threshold_bounds _ c hd
  · rw [hfall]
    rfl
  · rw [hfall]
    simp [build_config_dict, envIntField, envFloatField, envTruthy]

/-- C10 (confirmed): constructing `ServerConfig` with any integer `n` —
zero and negatives included — for `cache_size_limit`, `cache_ttl` and
`max_search_results` succeeds and stores `n` unchanged: those fields
carry no validator, only `fuzzy_match_threshold` (range) and `db_path`
(path normalization, never rejecting) do. -/
theorem c10_int_fields_unvalidated (n : Int) :
    ∃ c : ServerConfig,
      ServerConfig.ofDict
          { cache_size_limit := some n, cache_ttl := some n, max_search_results := some n } =
        Except.ok c ∧
      c.cache_size_limit = n ∧ c.cache_ttl = n ∧ c.max_search_results = n :=
  ⟨_, rfl, rfl, rfl, rfl⟩

/-- Witness for C1's amended theorem: environment `cache_ttl = "abc"`
(unparseable) next to `cache_size_limit = "41"` gives the default TTL,
the supplied size limit and the per-field warning; and a file threshold
of 2 reverts the whole configuration to the defaults. -/
theorem c1_per_field_and_global_fallback_witness :
    ((load_config { RUST_DOCS_CACHE_TTL := some "abc", RUST_DOCS_CACHE_SIZE_LIMIT := some "41" }
        FileSource.noPath).1.cache_ttl = 7 * 24 * 60 * 60 ∧
      (load_config { RUST_DOCS_CACHE_TTL := some "abc", RUST_DOCS_CACHE_SIZE_LIMIT := some "41" }
          FileSource.noPath).1.cache_size_limit = 41 ∧
      LogEvent.mk LogLevel.warning "Invalid RUST_DOCS_CACHE_TTL, using default" ∈
        (load_config { RUST_DOCS_CACHE_TTL := some "abc", RUST_DOCS_CACHE_SIZE_LIMIT := some "41" }
            FileSource.noPath).2) ∧
    (load_config {} (FileSource.loaded { fuzzy_match_threshold := some 2 })).1 =
      ServerConfig.default :=
  ⟨c1_per_field_and_global_fallback.1 "abc" "41" 41 (by decide) (by decide) (by decide),
   c1_per_field_and_global_fallback.2 {} (FileSource.loaded { fuzzy_match_threshold := some 2 })
     2 rfl (by decide)⟩

/-- C4 (counterexample): `fuzzy_match_threshold` is set in both the
environment (`"0.5"`) and the config file (1.5). The claim predicts the
returned value is the file's 1.5; instead the file value fails validation
and the whole configuration reverts to defaults, so the returned
threshold is 0.7 — neither the file's nor the environment's value. -/
theorem c4_counterexample :
    (load_config { RUST_DOCS_FUZZY_MATCH_THRESHOLD := some "0.5" }
        (FileSource.loaded { fuzzy_match_threshold := some (3 / 2) })).1.fuzzy_match_threshold ≠
      3 / 2 ∧
    (load_config { RUST_DOCS_FUZZY_MATCH_THRESHOLD := some "0.5" }
        (FileSource.loaded { fuzzy_match_threshold := some (3 / 2) })).1.fuzzy_match_threshold =
      7 / 10 := by
  have herr := ofDict_of_out_of_range
    (build_config_dict { RUST_DOCS_FUZZY_MATCH_THRESHOLD := some "0.5" }
      (FileSource.loaded { fuzzy_match_threshold := some (3 / 2) })).1
    (3 / 2) rfl three_halves_out_of_range
  rw [load_config_of_error _ _ _ herr]
  exact ⟨by norm_num [ServerConfig.default], rfl⟩

/-- C4 (amended): the layering file-over-environment-over-defaults holds
at the dictionary level and the constructed config stores the layered
value — stated for the representative `cache_ttl` field; the other
fields follow the identical code path — provided the merged dictionary
passes validation. When validation fails, `load_config` instead reverts
every field to its built-in default. -/
theorem c4_layered_precedence :
    (∀ (env : EnvVars) (fc : ConfigDict) (n : Int), fc.cache_ttl = some n →
      (build_config_dict env (FileSource.loaded fc)).1.cache_ttl = some n) ∧
    (∀ (env : EnvVars) (fc : ConfigDict) (s : String) (n : Int),
      env.RUST_DOCS_CACHE_TTL = some s → s ≠ "" → pyInt s = some n → fc.cache_ttl = none →
      (build_config_dict env (FileSource.loaded fc)).1.cache_ttl = some n) ∧
    (∀ (env : EnvVars) (fc : ConfigDict), env.RUST_DOCS_CACHE_TTL = none → fc.cache_ttl = none →
      (build_config_dict env (FileSource.loaded fc)).1.cache_ttl = none) ∧
    (∀ (d : ConfigDict) (c : ServerConfig), ServerConfig.ofDict d = Except.ok c →
      c.cache_ttl = d.cache_ttl.getD (7 * 24 * 60 * 60)) ∧
    (∀ (env : EnvVars) (file : FileSource) (c : ServerConfig),
      ServerConfig.ofDict (build_config_dict env file).1 = Except.ok c →
      (load_config env file).1 = c) ∧
    (∀ (env : EnvVars) (file : FileSource) (e : String),
      ServerConfig.ofDict (build_config_dict env file).1 = Except.error e →
      (load_config env file).1 = ServerConfig.default) := by
  refine ⟨?_, ?_, ?_, ?_, ?_, ?_⟩
  · intro env fc n h
    simp [build_config_dict, ConfigDict.update, h, Option.orElse]
  · intro env fc s n hset hs hparse hfc
    simp [build_config_dict, ConfigDict.update, envIntField, envTruthy, hset, hs, hparse, hfc,
      Option.orElse]
  · intro env fc hset hfc
    simp [build_config_dict, ConfigDict.update, envIntField, envTruthy, hset, hfc, Option.orElse]
  · intro d c h
    exact (ofDict_ok_fields d c h).2.2.1
  · intro env file c h
    rw [load_config_of_ok env file c h]
  · intro env file e h
    rw [load_config_of_error env file e h]

/-- Witness for C4's amended theorem: a file `cache_ttl` of 99 wins in
the merged dictionary, and a file threshold of −1 makes `load_config`
return the all-defaults configuration. -/
theorem c4_layered_precedence_witness :
    (build_config_dict {} (FileSource.loaded { cache_ttl := some 99 })).1.cache_ttl = some 99 ∧
    (load_config {} (FileSource.loaded { fuzzy_match_threshold := some (-1) })).1 =
      ServerConfig.default :=
  ⟨c4_layered_precedence.1 {} { cache_ttl := some 99 } 99 rfl,
   c4_layered_precedence.2.2.2.2.2 {} (FileSource.loaded { fuzzy_match_threshold := some (-1) })
     "Fuzzy match threshold must be between 0.0 and 1.0" rfl⟩

/-- C2 (code divergence, evaluated at the claim's input): the placeholder
`search_rust_docs_impl` consults no corpus; at query `"push"`, crate
`"std"`, `max_results = 5`, it returns `status = "success"` with an empty
`results` list and the not-yet-implemented message, so no top-ranked
`std::vec::Vec::push` entry (score ≥ 0.7 or otherwise) exists. -/
theorem c2_placeholder_search_returns_no_results :
    (search_rust_docs_impl "push" (some "std") 5 true).results = [] ∧
    (search_rust_docs_impl "push" (some "std") 5 true).status = "success" ∧
    (search_rust_docs_impl "push" (some "std") 5 true).message =
      "Search for " ++ apos ++ "push" ++ apos ++ " not yet implemented" :=
  ⟨rfl, rfl, rfl⟩

/-- C5 (confirmed): every call of the three operations returns a record
whose `status` is `"success"` or `"error"`, whose `message` is a string
(by the response types), and whose data field is present and
empty/default-shaped — `results = []`, `documentation = {}`,
`doc_count = 0` — never null or absent. -/
theorem c5_stable_response_schema (q : String) (crate : Option String) (mr : Int) (istd : Bool)
    (p : String) (iex imeth : Bool) (cp : String) (idep : Bool) :
    ((search_rust_docs_impl q crate mr istd).status = "success" ∨
      (search_rust_docs_impl q crate mr istd).status = "error") ∧
    (search_rust_docs_impl q crate mr istd).results = [] ∧
    ((get_rust_doc_details_impl p iex imeth).status = "success" ∨
      (get_rust_doc_details_impl p iex imeth).status = "error") ∧
    (get_rust_doc_details_impl p iex imeth).documentation = [] ∧
    ((generate_crate_docs_impl cp idep).status = "success" ∨
      (generate_crate_docs_impl cp idep).status = "error") ∧
    (generate_crate_docs_impl cp idep).doc_count = 0 :=
  ⟨Or.inl rfl, rfl, Or.inl rfl, rfl, Or.inl rfl, rfl⟩

/-- C6 (confirmed): for every `item_path` — the placeholder consults no
corpus, so in particular for every path absent from it, such as
`"nonexistent::path"` — `get_rust_doc_details_impl` returns a structured
response with an empty documentation object; being a total function, it
never raises. -/
theorem c6_details_empty_documentation (item_path : String) (iex imeth : Bool) :
    (get_rust_doc_details_impl item_path iex imeth).documentation = [] ∧
    (get_rust_doc_details_impl item_path iex imeth).status = "success" :=
  ⟨rfl, rfl⟩

/-- C7 (confirmed): searching with the empty-string query returns an
empty result sequence for every crate filter, result cap and
`include_std` flag — never all items. -/
theorem c7_empty_query_empty_results (crate : Option String) (mr : Int) (istd : Bool) :
    (search_rust_docs_impl "" crate mr istd).results = [] :=
  rfl

/-- C8 (confirmed): two calls to the search operation with identical
arguments return identical ordered results — the implementation reads
no mutable state (and no corpus), so its response, message bytes
included, is a function of the arguments alone. The implementation takes
no per-call threshold parameter; the claim's remaining arguments are the
full input. -/
theorem c8_search_deterministic (q q2 : String) (c c2 : Option String) (m m2 : Int)
    (s s2 : Bool) (hq : q = q2) (hc : c = c2) (hm : m = m2) (hs : s = s2) :
    search_rust_docs_impl q c m s = search_rust_docs_impl q2 c2 m2 s2 := by
  subst hq
  subst hc
  subst hm
  subst hs
  rfl

/-- Witness for C8: the two identical calls at a concrete input agree. -/
theorem c8_search_deterministic_witness :
    search_rust_docs_impl "push" (some "serde") 5 true =
      search_rust_docs_impl "push" (some "serde") 5 true :=
  c8_search_deterministic "push" "push" (some "serde") (some "serde") 5 5 true true
    rfl rfl rfl rfl

/-- C9 (confirmed): the placeholder implementations return
`status = "success"` on every input — the `"error"` status is
unreachable — and `generate_crate_docs_impl` always reports
`doc_count = 0`, whatever the crate path and dependency flag. -/
theorem c9_always_success_zero_doc_count (q : String) (crate : Option String) (mr : Int)
    (istd : Bool) (p : String) (iex imeth : Bool) (cp : String) (idep : Bool) :
    (search_rust_docs_impl q crate mr istd).status = "success" ∧
    (search_rust_docs_impl q crate mr istd).status ≠ "error" ∧
    (get_rust_doc_details_impl p iex imeth).status = "success" ∧
    (get_rust_doc_details_impl p iex imeth).status ≠ "error" ∧
    (generate_crate_docs_impl cp idep).status = "success" ∧
    (generate_crate_docs_impl cp idep).status ≠ "error" ∧
    (generate_crate_docs_impl cp idep).doc_count = 0 := by
  refine ⟨rfl, ?_, rfl, ?_, rfl, ?_, rfl⟩ <;>
    simp [search_rust_docs_impl, get_rust_doc_details_impl, generate_crate_docs_impl]
